import Mathlib

/-!
# Verification of the ask.sh command-line agent core

Shallow embedding of the safety classifier (`src/command_analyser.rs`), the
terminal-session output protocol (`src/tmux_command_executor.rs`), the
command-execution tool (`src/tools/execute_command.rs`) and the web-search
client (`src/tools/searxng_web_search.rs`), together with proofs of the
specified properties.

Strings are modelled through their character lists; the helpers below mirror
the Rust standard-library string operations used by the source (`trim`,
`trim_end`, `split_whitespace`, `contains`, `starts_with`, `ends_with`,
`lines`, `replace`, `to_lowercase`) on ASCII whitespace.
-/

/-- ASCII whitespace, as used by the embedded `trim`/`split_whitespace`. -/
def isWsChar (c : Char) : Bool :=
  c = ' ' || c = '\t' || c = '\n' || c = '\r'

/-- Rust `str::trim`: drop leading and trailing whitespace. -/
def strTrim (s : String) : String :=
  String.mk (((s.data.dropWhile isWsChar).reverse.dropWhile isWsChar).reverse)

/-- Rust `str::trim_end`: drop trailing whitespace. -/
def strTrimEnd (s : String) : String :=
  String.mk ((s.data.reverse.dropWhile isWsChar).reverse)

/-- Substring containment on character lists: some suffix starts with `pat`. -/
def listContainsSub (pat : List Char) : List Char → Bool
  | [] => pat.isPrefixOf []
  | c :: cs => pat.isPrefixOf (c :: cs) || listContainsSub pat cs

/-- Rust `str::contains` (substring search). -/
def strContainsSub (hay pat : String) : Bool :=
  listContainsSub pat.data hay.data

/-- Rust `str::starts_with`. -/
def strStartsWith (hay pat : String) : Bool :=
  pat.data.isPrefixOf hay.data

/-- Rust `str::ends_with`. -/
def strEndsWith (hay pat : String) : Bool :=
  pat.data.isSuffixOf hay.data

/-- Rust `str::to_lowercase` (ASCII fragment). -/
def strToLower (s : String) : String :=
  String.mk (s.data.map Char.toLower)

/-- Helper for `splitWs`: accumulate the current token (reversed). -/
def splitWsAux : List Char → List Char → List String
  | [], acc => if acc.isEmpty then [] else [String.mk acc.reverse]
  | c :: cs, acc =>
    if isWsChar c then
      if acc.isEmpty then splitWsAux cs []
      else String.mk acc.reverse :: splitWsAux cs []
    else splitWsAux cs (c :: acc)

/-- Rust `str::split_whitespace`: whitespace-separated tokens, no empties. -/
def splitWs (s : String) : List String :=
  splitWsAux s.data []

/-- Split a character list at every occurrence of `sep` (keeping empties),
as Rust `str::split(sep)`. -/
def splitOnCharAux (sep : Char) : List Char → List Char → List String
  | [], acc => [String.mk acc.reverse]
  | c :: cs, acc =>
    if c = sep then String.mk acc.reverse :: splitOnCharAux sep cs []
    else splitOnCharAux sep cs (c :: acc)

/-- Drop one trailing carriage return, as Rust `lines` does on `\r\n`. -/
def rstripCR (l : String) : String :=
  if strEndsWith l "\r" then String.mk l.data.dropLast else l

/-- Rust `str::lines`: split at `\n` (or `\r\n`); a final line terminator
produces no trailing empty line. -/
def linesOf (s : String) : List String :=
  let parts := splitOnCharAux '\n' s.data []
  let last := parts.getLastD ""
  let init := parts.dropLast.map rstripCR
  if last = "" then init else init ++ [last]

/-- Fuel-driven core of `strReplace`; with fuel at least the length of the
list and a nonempty pattern it performs Rust `str::replace`. -/
def replaceFuel (pat rep : List Char) : Nat → List Char → List Char
  | 0, l => l
  | _ + 1, [] => []
  | fuel + 1, c :: cs =>
    if pat.isPrefixOf (c :: cs) then rep ++ replaceFuel pat rep fuel ((c :: cs).drop pat.length)
    else c :: replaceFuel pat rep fuel cs

/-- Rust `str::replace`: replace every occurrence of `pat` by `rep`. -/
def strReplace (s pat rep : String) : String :=
  String.mk (replaceFuel pat.data rep.data s.data.length s.data)

/-! ## SafetyClassifier (`src/command_analyser.rs`) -/

namespace CommandAnalyser

/-- Source `FILE_COMMANDS` constant of `is_file_modifying`. -/
def FILE_COMMANDS : List String :=
  ["rm", "rmdir", "mv", "cp", "dd", "touch", "mkdir", "ln", "chmod", "chown", "chgrp",
   "shred", "nano", "vim", "vi", "emacs", "sed", "tee", "truncate", "split", ">>", ">"]

/-- Source `PACKAGE_MANAGERS` constant of `is_package_manager`. -/
def PACKAGE_MANAGERS : List String :=
  ["brew", "apt", "apt-get", "yum", "dnf", "pacman", "npm", "yarn", "pnpm", "pip", "pip3",
   "cargo", "gem", "go", "composer", "mvn", "gradle", "snap", "flatpak", "apk", "zypper"]

/-- Source `NETWORK_COMMANDS` constant of `is_network_operation`. -/
def NETWORK_COMMANDS : List String :=
  ["curl", "wget", "fetch", "http", "scp", "rsync", "ssh", "sftp", "ftp", "nc", "netcat",
   "telnet"]

/-- Source `SYSTEM_COMMANDS` constant of `is_system_config`. -/
def SYSTEM_COMMANDS : List String :=
  ["systemctl", "service", "launchctl", "export", "source", "chsh", "usermod", "useradd",
   "userdel", "groupadd", "groupdel", "passwd", "sudo", "su", "mount", "umount", "sysctl",
   "modprobe"]

/-- Source `DB_COMMANDS` constant of `is_database_operation`. -/
def DB_COMMANDS : List String :=
  ["mysql", "psql", "sqlite", "sqlite3", "mongo", "mongosh", "redis-cli", "influx", "cql",
   "cqlsh"]

/-- Source `SQL_KEYWORDS` constant of `is_database_operation`. -/
def SQL_KEYWORDS : List String :=
  ["DROP", "DELETE", "UPDATE", "INSERT", "ALTER", "CREATE"]

/-- Source `DANGEROUS_PATTERNS` constant of `is_risky`. -/
def DANGEROUS_PATTERNS : List String :=
  ["/dev/", "rm -rf", "rm -fr", ":()\x7b :|:& \x7d;:", "/dev/null", "> /dev/sda", "mkfs", "format"]

/-- Source `DANGEROUS_COMMANDS` constant of `is_risky`. -/
def DANGEROUS_COMMANDS : List String :=
  ["eval", "exec", "sh", "bash", "zsh", "python", "perl", "ruby", "kill", "killall",
   "pkill", "reboot", "shutdown", "halt", "crontab", "at", "batch"]

/-- Source `extract_base_command`: skip `KEY=VALUE` tokens, take the first token,
cut at the first pipe, lowercase. -/
def extract_base_command (cmd : String) : String :=
  match (splitWs cmd).dropWhile (fun w => strContainsSub w "=") with
  | [] => ""
  | w :: _ =>
    let seg := (splitOnCharAux '|' w.data []).headD ""
    strToLower ((splitWs seg).headD "")

/-- Source `is_file_modifying` on the base command. -/
def is_file_modifying (cmd : String) : Bool :=
  FILE_COMMANDS.contains cmd || strStartsWith cmd "write" || strEndsWith cmd "fs"

/-- Source `is_package_manager` on the base command. -/
def is_package_manager (cmd : String) : Bool :=
  PACKAGE_MANAGERS.contains cmd || strStartsWith cmd "install"

/-- Source `is_network_operation` on the base command. -/
def is_network_operation (cmd : String) : Bool :=
  NETWORK_COMMANDS.contains cmd

/-- Source `is_system_config` on the full (trimmed) command string. -/
def is_system_config (full_cmd : String) : Bool :=
  if strContainsSub full_cmd "/etc/" || strContainsSub full_cmd "/sys/" then true
  else SYSTEM_COMMANDS.contains (extract_base_command full_cmd)

/-- Source `is_database_operation`; note the source passes the lowercased *base*
command as `cmd`, both for the fixed list and for the SQL-keyword scan. -/
def is_database_operation (cmd : String) : Bool :=
  DB_COMMANDS.contains cmd || SQL_KEYWORDS.any (fun kw => strContainsSub cmd kw)

/-- Source `is_risky` on the full command and the base command. -/
def is_risky (full_cmd base_cmd : String) : Bool :=
  DANGEROUS_PATTERNS.any (fun p => strContainsSub full_cmd p)
    || DANGEROUS_COMMANDS.contains base_cmd

/-- Source `LOCAL_MODIFY` constant of `is_modifying_git`. -/
def LOCAL_MODIFY : List String :=
  ["git add", "git commit", "git checkout", "git switch", "git restore", "git merge",
   "git rebase", "git cherry-pick", "git revert", "git stash", "git rm", "git mv",
   "git apply", "git am", "git reset", "git submodule"]

/-- Source `NETWORK_OPS` constant of `is_modifying_git`. -/
def NETWORK_OPS : List String :=
  ["git clone", "git fetch", "git pull", "git push", "git remote add", "git remote remove",
   "git remote set-url"]

/-- Source `CONFIG_OPS` constant of `is_modifying_git`. -/
def CONFIG_OPS : List String :=
  ["git worktree add", "git worktree remove"]

/-- Source `DESTRUCTIVE_PATTERNS` constant of `is_destructive_git`. -/
def DESTRUCTIVE_PATTERNS : List String :=
  ["reset --hard", "clean -f", "clean -d", "clean -x", "branch -d", "branch -D",
   "push --force", "push -f", "push --mirror", "filter-branch", "reflog delete",
   "reflog expire", "prune", "gc --prune"]

/-- Source `is_modifying_git` on the lowercased command. -/
def is_modifying_git (cmd : String) : Bool :=
  LOCAL_MODIFY.any (fun p => strStartsWith cmd p)
    || NETWORK_OPS.any (fun p => strStartsWith cmd p)
    || CONFIG_OPS.any (fun p => strStartsWith cmd p)
    || (strStartsWith cmd "git config" && !strContainsSub cmd "--list"
          && !strContainsSub cmd "--get")

/-- Source `is_destructive_git` on the lowercased command. -/
def is_destructive_git (cmd : String) : Bool :=
  DESTRUCTIVE_PATTERNS.any (fun p => strContainsSub cmd p)

/-- Source `check_git_command`: the modifying check runs before the destructive
check, exactly as in the source. -/
def check_git_command (cmd : String) : Bool × Option String :=
  if is_modifying_git (strToLower cmd) then (true, some "modifies git repository or remote")
  else if is_destructive_git (strToLower cmd) then (true, some "destructive git operation")
  else (false, none)

/-- Source `requires_approval`: trim, extract the base command, then run the
category checks in source order; first match wins. -/
def requires_approval (command : String) : Bool × Option String :=
  if extract_base_command (strTrim command) = "git" then
    check_git_command (strTrim command)
  else if is_file_modifying (extract_base_command (strTrim command)) then
    (true, some "modifies files or system state")
  else if is_package_manager (extract_base_command (strTrim command)) then
    (true, some "installs or manages software")
  else if is_network_operation (extract_base_command (strTrim command)) then
    (true, some "performs network operations")
  else if is_system_config (strTrim command) then
    (true, some "modifies system configuration")
  else if is_database_operation (extract_base_command (strTrim command)) then
    (true, some "performs database operations")
  else if is_risky (strTrim command) (extract_base_command (strTrim command)) then
    (true, some "potentially risky operation")
  else (false, none)

end CommandAnalyser

/-! ## TerminalSession (`src/tmux_command_executor.rs`) -/

namespace TmuxCommandExecutor

/-- One iteration of `clean_command_output`'s backward scan: the marker line
(cleaned, kept only if nonempty) starts collection; while collecting, a line
starting with the prompt fingerprint breaks the loop, nonempty lines are
collected, other lines are skipped. -/
def cleanGo (prompt_pattern marker : String) : List String → Bool → List String
  | [], _ => []
  | line :: rest, collecting =>
    if strContainsSub line marker && !strContainsSub line ("echo " ++ marker) then
      let cleaned := strReplace line marker ""
      if !(strTrim cleaned).isEmpty then cleaned :: cleanGo prompt_pattern marker rest true
      else cleanGo prompt_pattern marker rest true
    else if collecting then
      if strStartsWith line prompt_pattern then []
      else if !(strTrim line).isEmpty && !strStartsWith line prompt_pattern then
        line :: cleanGo prompt_pattern marker rest collecting
      else cleanGo prompt_pattern marker rest collecting
    else cleanGo prompt_pattern marker rest collecting

/-- Source `clean_command_output`: scan the captured lines from the end backward,
collect with `cleanGo`, reverse back to forward order and join. -/
def clean_command_output (prompt_pattern content marker : String) : String :=
  String.intercalate "\n" ((cleanGo prompt_pattern marker (linesOf content).reverse false).reverse)

/-- The pane-polling success condition of `execute_command`: some line of the
trimmed capture contains the marker without containing `echo <marker>`. -/
def markerFound (marker stdout : String) : Bool :=
  (linesOf (strTrimEnd stdout)).any
    (fun line => strContainsSub line marker && !strContainsSub line ("echo " ++ marker))

/-- Outcome of the bounded polling loop of `execute_command`. -/
inductive PollResult where
  | success (attempts : Nat)
  | stderrOut (content : String)
  | timeout
deriving DecidableEq

/-- The polling loop of `execute_command`, with the capture at each attempt
supplied by `captures` (stdout, stderr). As in the source, the attempt
counter is incremented after the checks and compared against `maxAttempts`.
`fuel` only drives the recursion; with `fuel = maxAttempts` it never runs
out before the counter check returns. -/
def pollAux (marker : String) (captures : Nat → String × String) (maxAttempts : Nat) :
    Nat → Nat → PollResult
  | attempts, fuel =>
    if markerFound marker (captures attempts).1 then .success attempts
    else if !(strTrimEnd (captures attempts).2).isEmpty then
      .stderrOut (strTrimEnd (captures attempts).2)
    else if maxAttempts ≤ attempts + 1 then .timeout
    else
      match fuel with
      | 0 => .timeout
      | fuel' + 1 => pollAux marker captures maxAttempts (attempts + 1) fuel'

/-- Source `execute_command` for one marker: poll up to 100 attempts; on success
clean the final scrollback capture, on early stderr return it as ordinary
output, on exhaustion return the error `"Command timeout"`. -/
def execute_command (prompt_pattern marker : String) (captures : Nat → String × String)
    (finalCapture : String) : Except String String :=
  match pollAux marker captures 100 0 100 with
  | .success _ => .ok (clean_command_output prompt_pattern finalCapture marker)
  | .stderrOut e => .ok e
  | .timeout => .error "Command timeout"

end TmuxCommandExecutor

/-! ## ExecuteCommandTool (`src/tools/execute_command.rs`) -/

namespace ExecuteCommandTool

/-- Result of the `inquire` confirmation prompt (`Result<bool, InquireError>`). -/
inductive PromptResult where
  | ok (value : Bool)
  | err
deriving DecidableEq

/-- Source `call_tool_function`, with the interactive prompt answer and the terminal
session supplied as parameters. Returns the result content together with a
flag recording whether the terminal session was created/invoked. The guard
mirrors `prompt_result.is_none() || prompt_result.unwrap().is_ok_and(r == true)`. -/
def call_tool_function (command : String) (answer : PromptResult)
    (session : String → Except String String) : String × Bool :=
  let prompt_result : Option PromptResult :=
    if (CommandAnalyser.requires_approval command).1 then some answer else none
  if prompt_result.isNone
      || (match prompt_result with
          | some (.ok v) => v
          | _ => false) then
    match session command with
    | .ok output => (output, true)
    | .error e => (e, true)
  else ("Command rejected by the user.", false)

end ExecuteCommandTool

/-! ## SearxngClient (`src/tools/searxng_web_search.rs`) -/

namespace Searxng

/-- A raw result parsed from the backend response (`SearxngResult`). -/
structure SearxngResult where
  title : String
  url : String
  content : String
  img_src : Option String
deriving DecidableEq

/-- A result returned by the tool (`SearchResult`). -/
structure SearchResult where
  title : String
  url : String
  content : String
  img_src : Option String
deriving DecidableEq

/-- The field-for-field conversion applied in `search`'s `map`. -/
def convert (r : SearxngResult) : SearchResult :=
  ⟨r.title, r.url, r.content, r.img_src⟩

/-- Tool-level errors (`ToolError`). -/
inductive ToolError where
  | ApiError (message : String)
deriving DecidableEq

/-- Outcome of the HTTP request in `search`: transport error, non-success
HTTP status, or a parsed body carrying the backend's result list. -/
inductive SearchOutcome where
  | netErr (message : String)
  | httpErr (status : String) (body : String)
  | okJson (results : List SearxngResult)
deriving DecidableEq

/-- Source `search`: map the request outcome to the tool result; on success take
the first five backend results, converted field-for-field. -/
def search : SearchOutcome → Except ToolError (List SearchResult)
  | .netErr e => .error (.ApiError e)
  | .httpErr status body => .error (.ApiError ("SearXNG API error: " ++ status ++ ": " ++ body))
  | .okJson results => .ok ((results.take 5).map convert)

end Searxng

/-! ## Helper lemmas -/

/-- While collecting is off, a scan over lines none of which contains the
marker collects nothing. -/
theorem cleanGo_of_no_marker (prompt_pattern marker : String) (lines : List String)
    (h : ∀ l ∈ lines, strContainsSub l marker = false) :
    TmuxCommandExecutor.cleanGo prompt_pattern marker lines false = [] := by
  induction lines with
  | nil => rfl
  | cons line rest ih =>
    unfold TmuxCommandExecutor.cleanGo
    rw [h line (List.mem_cons_self line rest)]
    simp only [Bool.false_and, Bool.false_eq_true, if_false]
    exact ih (fun l hl => h l (List.mem_cons_of_mem line hl))

/-- If no capture below `maxAttempts` shows the marker and all stderr streams
are empty, the polling loop times out (for positive bounds and enough fuel). -/
theorem pollAux_all_bad_timeout (marker : String) (captures : Nat → String × String)
    (maxAttempts : Nat)
    (h : ∀ i < maxAttempts, TmuxCommandExecutor.markerFound marker (captures i).1 = false ∧
      strTrimEnd (captures i).2 = "") :
    ∀ fuel attempts, attempts < maxAttempts →
      TmuxCommandExecutor.pollAux marker captures maxAttempts attempts fuel = .timeout := by
  intro fuel
  induction fuel with
  | zero =>
    intro attempts hlt
    unfold TmuxCommandExecutor.pollAux
    rw [(h attempts hlt).1, (h attempts hlt).2]
    rw [if_neg (by decide), if_neg (by decide)]
    split <;> rfl
  | succ fuel ih =>
    intro attempts hlt
    unfold TmuxCommandExecutor.pollAux
    rw [(h attempts hlt).1, (h attempts hlt).2]
    rw [if_neg (by decide), if_neg (by decide)]
    by_cases hle : maxAttempts ≤ attempts + 1
    · rw [if_pos hle]
    · rw [if_neg hle]
      exact ih (attempts + 1) (by omega)

/-- Sample backend response used to witness the truncation property. -/
def sampleBackend : List Searxng.SearxngResult :=
  [⟨"t1", "u1", "c1", none⟩, ⟨"t2", "u2", "c2", none⟩, ⟨"t3", "u3", "c3", none⟩,
   ⟨"t4", "u4", "c4", none⟩, ⟨"t5", "u5", "c5", none⟩, ⟨"t6", "u6", "c6", none⟩]

/-! ## Claims -/

/-- C1, counterexample: `git reset --hard` matches a destructive git pattern
and a modifying git prefix, yet `requires_approval` reports the generic
reason "modifies git repository or remote", because the source checks
`is_modifying_git` before `is_destructive_git`. -/
theorem c1_counterexample :
    CommandAnalyser.is_destructive_git (strToLower (strTrim "git reset --hard")) = true ∧
    CommandAnalyser.is_modifying_git (strToLower (strTrim "git reset --hard")) = true ∧
    CommandAnalyser.requires_approval "git reset --hard" =
      (true, some "modifies git repository or remote") ∧
    ("modifies git repository or remote" : String) ≠ "destructive git operation" := by
  decide

/-- C1, amended: for every git command that matches both a destructive git
pattern and a modifying git prefix, `requires_approval` returns
`needs_approval = true`, but with the reason "modifies git repository or
remote": the modifying check takes precedence over the destructive one. -/
theorem c1_amended (command : String)
    (hbase : CommandAnalyser.extract_base_command (strTrim command) = "git")
    (_hdes : CommandAnalyser.is_destructive_git (strToLower (strTrim command)) = true)
    (hmod : CommandAnalyser.is_modifying_git (strToLower (strTrim command)) = true) :
    CommandAnalyser.requires_approval command =
      (true, some "modifies git repository or remote") := by
  unfold CommandAnalyser.requires_approval
  rw [if_pos hbase]
  unfold CommandAnalyser.check_git_command
  rw [if_pos hmod]

/-- C1, witness for the amended theorem at `git reset --hard`. -/
theorem c1_witness :
    CommandAnalyser.requires_approval "git reset --hard" =
      (true, some "modifies git repository or remote") :=
  c1_amended "git reset --hard" (by decide) (by decide) (by decide)

/-- C2: the command `mycmd DROP TABLE users` contains the upper-case SQL verb
`DROP`, is in no earlier category, and yet is classified safe: the source
passes the lowercased *base* command (here `mycmd`) to the SQL-keyword scan,
so the upper-case keywords can never match. -/
theorem c2_code_eval :
    strContainsSub "mycmd DROP TABLE users" "DROP" = true ∧
    CommandAnalyser.extract_base_command (strTrim "mycmd DROP TABLE users") = "mycmd" ∧
    CommandAnalyser.requires_approval "mycmd DROP TABLE users" = (false, none) := by
  decide

/-- C3: when the classifier demands approval and the prompt result is a
decline (`Ok(false)`, which is also the default on empty input) or an error
(invalid input), the tool returns the fixed rejection content and the
terminal session is never created or invoked. -/
theorem c3_declined_no_terminal (command : String) (answer : ExecuteCommandTool.PromptResult)
    (session : String → Except String String)
    (hneeds : (CommandAnalyser.requires_approval command).1 = true)
    (hdecl : answer = .ok false ∨ answer = .err) :
    ExecuteCommandTool.call_tool_function command answer session =
      ("Command rejected by the user.", false) := by
  rcases hdecl with rfl | rfl <;>
    simp [ExecuteCommandTool.call_tool_function, hneeds]

/-- C3, witness: declining the approval prompt for `rm file.txt`. -/
theorem c3_witness :
    ExecuteCommandTool.call_tool_function "rm file.txt" (.ok false) (fun _ => .ok "output") =
      ("Command rejected by the user.", false) :=
  c3_declined_no_terminal "rm file.txt" (.ok false) (fun _ => .ok "output")
    (by decide) (Or.inl rfl)

/-- C4: `git clean -f` is classified as needing approval with the
destructive-git reason, not the generic git-modifying reason. -/
theorem c4_git_clean_destructive :
    CommandAnalyser.requires_approval "git clean -f" =
      (true, some "destructive git operation") := by
  decide

/-- C5: cleaning the synthetic four-line pane buffer with marker `M123` and
prompt fingerprint `$ ` yields exactly `file.txt`. -/
theorem c5_clean_synthetic_buffer :
    TmuxCommandExecutor.clean_command_output "$ "
      "$ ls && echo M123\nfile.txt\nM123\n$ " "M123" = "file.txt" := by
  decide

/-- C6, counterexample: `file.txt` is itself the cleaned output of the
synthetic buffer, yet cleaning it again returns the empty string, not
`file.txt`: the cleaning function is not idempotent on already-clean text. -/
theorem c6_counterexample :
    TmuxCommandExecutor.clean_command_output "$ "
      "$ ls && echo M123\nfile.txt\nM123\n$ " "M123" = "file.txt" ∧
    TmuxCommandExecutor.clean_command_output "$ " "file.txt" "M123" = "" ∧
    ("" : String) ≠ "file.txt" := by
  decide

/-- C6, amended: on any text without a marker line (in particular on
already-clean output) the cleaning function returns the empty string, since
collection only ever starts at a marker line. -/
theorem c6_amended (prompt_pattern marker content : String)
    (h : ∀ l ∈ linesOf content, strContainsSub l marker = false) :
    TmuxCommandExecutor.clean_command_output prompt_pattern content marker = "" := by
  unfold TmuxCommandExecutor.clean_command_output
  rw [cleanGo_of_no_marker prompt_pattern marker (linesOf content).reverse
    (fun l hl => h l (List.mem_reverse.mp hl))]
  rfl

/-- C6, witness for the amended theorem on the clean text `file.txt`. -/
theorem c6_witness :
    TmuxCommandExecutor.clean_command_output "$ " "file.txt" "M123" = "" :=
  c6_amended "$ " "M123" "file.txt" (by decide)

/-- C7: if no polled capture within the 100-attempt bound contains a marker
line (a line with the marker but without the echoed `echo <marker>` text)
and every polled stderr stream is empty, `execute_command` returns the error
`Command timeout`; the loop never runs past the bound. -/
theorem c7_timeout (prompt_pattern marker finalCapture : String)
    (captures : Nat → String × String)
    (h : ∀ i < 100, TmuxCommandExecutor.markerFound marker (captures i).1 = false ∧
      strTrimEnd (captures i).2 = "") :
    TmuxCommandExecutor.execute_command prompt_pattern marker captures finalCapture =
      Except.error "Command timeout" := by
  unfold TmuxCommandExecutor.execute_command
  rw [pollAux_all_bad_timeout marker captures 100 h 100 0 (by omega)]

/-- C7, witness: a session whose captures never show the marker. -/
theorem c7_witness :
    TmuxCommandExecutor.execute_command "$ " "M123" (fun _ => ("", "")) "" =
      Except.error "Command timeout" :=
  c7_timeout "$ " "M123" "" (fun _ => ("", "")) (fun _ _ => ⟨rfl, rfl⟩)

/-- C8: for every command string, `requires_approval` returns either
`(false, none)` or `(true, some reason)`; a `true` verdict always carries a
reason, so the caller's unwrap never fails. -/
theorem c8_reason_present (command : String) :
    CommandAnalyser.requires_approval command = (false, none) ∨
    ∃ r, CommandAnalyser.requires_approval command = (true, some r) := by
  unfold CommandAnalyser.requires_approval CommandAnalyser.check_git_command
  repeat' split
  all_goals first
    | exact Or.inl rfl
    | exact Or.inr ⟨_, rfl⟩

/-- C9, counterexample: `PATH=/etc/profile` consists of a single `KEY=VALUE`
environment-assignment token, yet it is not classified safe: the `/etc/`
substring check of `is_system_config` runs on the full command string and
flags it. -/
theorem c9_counterexample :
    (∀ w ∈ splitWs "PATH=/etc/profile", strContainsSub w "=" = true) ∧
    CommandAnalyser.requires_approval "PATH=/etc/profile" =
      (true, some "modifies system configuration") := by
  decide

/-- C9, amended: the empty command, every whitespace-only command, and every
command consisting only of `KEY=VALUE` tokens is classified safe, provided
the full trimmed string contains neither `/etc/` nor `/sys/` nor any of the
dangerous substrings checked on the full command. -/
theorem c9_amended (command : String)
    (htok : ∀ w ∈ splitWs (strTrim command), strContainsSub w "=" = true)
    (hetc : strContainsSub (strTrim command) "/etc/" = false)
    (hsys : strContainsSub (strTrim command) "/sys/" = false)
    (hpat : ∀ p ∈ CommandAnalyser.DANGEROUS_PATTERNS,
      strContainsSub (strTrim command) p = false) :
    CommandAnalyser.requires_approval command = (false, none) := by
  have hdrop : (splitWs (strTrim command)).dropWhile (fun w => strContainsSub w "=") = [] :=
    List.dropWhile_eq_nil_iff.mpr (fun w hw => htok w hw)
  have hbase : CommandAnalyser.extract_base_command (strTrim command) = "" := by
    unfold CommandAnalyser.extract_base_command
    rw [hdrop]
  have hsysconf : ¬(CommandAnalyser.is_system_config (strTrim command) = true) := by
    unfold CommandAnalyser.is_system_config
    rw [hetc, hsys, hbase]
    decide
  have hany : CommandAnalyser.DANGEROUS_PATTERNS.any
      (fun p => strContainsSub (strTrim command) p) = false :=
    List.any_eq_false.mpr (fun p hp => by rw [hpat p hp]; exact Bool.false_ne_true)
  have hrisky : ¬(CommandAnalyser.is_risky (strTrim command)
      (CommandAnalyser.extract_base_command (strTrim command)) = true) := by
    unfold CommandAnalyser.is_risky
    rw [hany, hbase]
    decide
  unfold CommandAnalyser.requires_approval
  rw [if_neg (by rw [hbase]; decide)]
  rw [if_neg (by rw [hbase]; decide)]
  rw [if_neg (by rw [hbase]; decide)]
  rw [if_neg (by rw [hbase]; decide)]
  rw [if_neg hsysconf]
  rw [if_neg (by rw [hbase]; decide)]
  rw [if_neg hrisky]

/-- C9, witness for the amended theorem: an env-assignment-only command and,
via the same theorem shape, its safety verdict. -/
theorem c9_witness :
    CommandAnalyser.requires_approval "RUST_LOG=debug FOO=bar" = (false, none) :=
  c9_amended "RUST_LOG=debug FOO=bar" (by decide) (by decide) (by decide) (by decide)

/-- C10: every successful web search returns the first five backend results
(in order) converted field-for-field, hence at most five results. -/
theorem c10_take5 (outcome : Searxng.SearchOutcome) (results : List Searxng.SearchResult)
    (h : Searxng.search outcome = .ok results) :
    results.length ≤ 5 ∧
    ∃ backend, outcome = .okJson backend ∧
      results = (backend.map Searxng.convert).take 5 := by
  cases outcome with
  | netErr e => simp [Searxng.search] at h
  | httpErr status body => simp [Searxng.search] at h
  | okJson backend =>
    have hres : results = (backend.take 5).map Searxng.convert := by
      simpa [Searxng.search] using h.symm
    subst hres
    refine ⟨?_, backend, rfl, ?_⟩
    · rw [List.length_map, List.length_take]
      exact min_le_left 5 backend.length
    · rw [List.map_take]

/-- C10, witness: a backend answer with six results is truncated to five. -/
theorem c10_witness :
    ((sampleBackend.map Searxng.convert).take 5).length ≤ 5 ∧
    ∃ backend, Searxng.SearchOutcome.okJson sampleBackend = .okJson backend ∧
      (sampleBackend.map Searxng.convert).take 5 = (backend.map Searxng.convert).take 5 :=
  c10_take5 (.okJson sampleBackend) ((sampleBackend.map Searxng.convert).take 5) rfl

